import Mathlib

/-!
Verification of the C-program chat/execution service.

The development shallowly embeds the four Python modules:
  chat_handler.py  — ChatHandler.process_message and its two text scanners
  code_executor.py — CodeExecutor.execute_c_code (compile/run/timeout pipeline)
  main.py          — ConnectionManager (broadcast/connect/disconnect) and the
                     websocket replay-on-join endpoint
External effects (the gcc subprocess, the program under test, the wall clock,
uuid generation, and the OpenAI-backed generation service) are modelled as
explicit oracle parameters; everything else is a direct transcription of the
source control flow.
-/

/-! ## Basic string and association-list utilities -/

/-- ASCII lowercasing of one character, as Python str.lower does for ASCII. -/
def lowerChar (c : Char) : Char :=
  if 65 ≤ c.toNat ∧ c.toNat ≤ 90 then Char.ofNat (c.toNat + 32) else c

/-- Python str.lower (restricted to ASCII, which is all the code compares). -/
def lowerStr (s : String) : String :=
  String.mk (s.data.map lowerChar)

/-- Python regex \s on ASCII text: space, tab, newline, carriage return,
form feed, vertical tab. -/
def isWsChar (c : Char) : Bool :=
  c == ' ' || c == '\t' || c == '\n' || c == '\r' || c == '\x0c' || c == '\x0b'

/-- Does the candidate list start with the given chunk? -/
def matchesAt : List Char → List Char → Bool
  | [], _ => true
  | _ :: _, [] => false
  | a :: as, b :: bs => a == b && matchesAt as bs

/-- Python substring containment (needle in haystack). -/
def containsSub (needle : List Char) : List Char → Bool
  | [] => matchesAt needle []
  | c :: rest => matchesAt needle (c :: rest) || containsSub needle rest

/-- Python str.strip: drop leading and trailing whitespace. -/
def stripChars (l : List Char) : List Char :=
  ((l.dropWhile (fun c => isWsChar c)).reverse.dropWhile (fun c => isWsChar c)).reverse

/-- Lookup in an association list keyed by strings (Python dict access). -/
def lookupMap {α : Type} : List (String × α) → String → Option α
  | [], _ => none
  | (k1, v) :: rest, k => if k1 = k then some v else lookupMap rest k

/-- Python dict assignment: replace the binding in place or append a new one. -/
def setMap {α : Type} : List (String × α) → String → α → List (String × α)
  | [], k, v => [(k, v)]
  | (k1, v1) :: rest, k, v =>
      if k1 = k then (k1, v) :: rest else (k1, v1) :: setMap rest k v

/-- Python del on a dict key. -/
def removeKey {α : Type} : List (String × α) → String → List (String × α)
  | [], _ => []
  | (k1, v1) :: rest, k =>
      if k1 = k then removeKey rest k else (k1, v1) :: removeKey rest k

/-- Python list.remove: delete the first occurrence of an element. -/
def removeFirst {α : Type} [DecidableEq α] : List α → α → List α
  | [], _ => []
  | c :: rest, a => if c = a then rest else c :: removeFirst rest a

/-! ## ChatHandler text scanners (chat_handler.py lines 123-146)

The code-block pattern in the source is the regex
  three backticks, (?:c|C), \s*, newline, lazy nonempty body, newline,
  three backticks
with IGNORECASE, and the first match's capture group is stripped.  The
scanner below reproduces the regex engine's behaviour on that pattern:
leftmost match start; the greedy \s* tried longest-first, backtracking until
the mandatory newline follows; the lazy body stopping at the first
newline-plus-triple-backtick terminator. -/

/-- Lazy body scan: accumulate characters until the remaining text starts
with a newline followed by three backticks; the accumulator is reversed. -/
def lazyBodyGo (acc : List Char) : List Char → Option (List Char × List Char)
  | '\n' :: '`' :: '`' :: '`' :: after => some (acc.reverse, after)
  | c :: rest => lazyBodyGo (c :: acc) rest
  | [] => none

/-- The lazy nonempty capture group: its first character is always consumed,
then the earliest terminator ends it. -/
def lazyBody : List Char → Option (List Char × List Char)
  | [] => none
  | c :: rest => lazyBodyGo [c] rest

/-- Length of the maximal whitespace run at the head of the text. -/
def wsRunLen : List Char → Nat
  | c :: rest => if isWsChar c then wsRunLen rest + 1 else 0
  | [] => 0

/-- Backtracking for the greedy whitespace quantifier: try consuming k
whitespace characters (longest first); the next character must be a newline
and a lazy body with terminator must follow. -/
def fenceTryWs : Nat → List Char → Option (List Char)
  | 0, rest =>
      match rest with
      | '\n' :: after =>
          match lazyBody after with
          | some (body, _) => some body
          | none => none
      | _ => none
  | k + 1, rest =>
      match rest.drop (k + 1) with
      | '\n' :: after =>
          match lazyBody after with
          | some (body, _) => some body
          | none => fenceTryWs k rest
      | _ => fenceTryWs k rest

/-- Try to match the fenced-block pattern starting exactly here. -/
def matchFence (l : List Char) : Option (List Char) :=
  match l with
  | '`' :: '`' :: '`' :: c :: rest =>
      if c == 'c' || c == 'C' then fenceTryWs (wsRunLen rest) rest else none
  | _ => none

/-- Leftmost match of the fenced-block pattern (re.findall scans start
positions left to right; the pattern can only start at a backtick). -/
def findFirstBlock : List Char → Option (List Char)
  | [] => none
  | c :: rest =>
      match matchFence (c :: rest) with
      | some body => some body
      | none => findFirstBlock rest

/-- ChatHandler._extract_code: first C code block of the message, stripped;
the reported language is always the literal "c". -/
def extract_code (message : String) : Option (String × String) :=
  match findFirstBlock message.data with
  | some body => some ("c", String.mk (stripChars body))
  | none => none

/-- The fixed trigger phrases of ChatHandler._is_run_previous_code_request. -/
def run_commands : List String :=
  ["run it", "execute it", "run this", "execute this",
   "run the code", "execute the code", "run that code",
   "run the program", "execute the program"]

/-- ChatHandler._is_run_previous_code_request: case-insensitive substring
test against the fixed phrase list. -/
def is_run_previous_code_request (message : String) : Bool :=
  run_commands.any (fun cmd => containsSub cmd.data (lowerStr message).data)

/-- Python truthiness of the optional last_generated_code field:
None and the empty string are falsy. -/
def optTruthy : Option String → Bool
  | none => false
  | some s => !s.isEmpty

/-! ## CodeExecutor (code_executor.py)

The executor's externals are modelled as oracles:
ProcBehavior describes what an external process would do if awaited
(its streams, exit code, and how long it runs); subprocessRun is
subprocess.run, turning a behaviour into a result under an optional
timeout.  ExecEnv packages the oracles one call consumes: an optional
exception while writing the source file (the outer try/except), the gcc
process, the compiled program's process, an optional non-timeout exception
from the run call, and the wall-clock time elapsed when the finally block
reads the clock. -/

/-- The result dictionary built by execute_c_code (the spec's
ExecutionRecord wire shape). Time is in abstract clock units. -/
structure ExecResult where
  output : String
  error : String
  status_code : Int
  execution_time : Nat
  deriving DecidableEq

/-- The JSON status payloads broadcast by execute_c_code. -/
inductive Event where
  | starting : Event
  | compiling : Event
  | running : Event
  | compile_error : String → Event
  | error : String → Event
  | completed : ExecResult → Event
  deriving DecidableEq

/-- The status string of an event payload. -/
def eventStatus : Event → String
  | Event.starting => "starting"
  | Event.compiling => "compiling"
  | Event.running => "running"
  | Event.compile_error _ => "compile_error"
  | Event.error _ => "error"
  | Event.completed _ => "completed"

/-- Behaviour of an external process: its captured streams, exit code, and
wall-clock duration. -/
structure ProcBehavior where
  stdout : String
  stderr : String
  returncode : Int
  duration : Nat
  deriving DecidableEq

/-- Result of awaiting a process under an optional timeout. -/
inductive ProcResult where
  | finished : String → String → Int → ProcResult
  | timeout : ProcResult
  deriving DecidableEq

/-- subprocess.run: without a timeout the process always finishes; with
timeout t it raises TimeoutExpired when the process runs longer than t. -/
def subprocessRun (p : ProcBehavior) (timeLimit : Option Nat) : ProcResult :=
  match timeLimit with
  | none => ProcResult.finished p.stdout p.stderr p.returncode
  | some t =>
      if t < p.duration then ProcResult.timeout
      else ProcResult.finished p.stdout p.stderr p.returncode

/-- The external effects one execute_c_code call consumes. -/
structure ExecEnv where
  writeExc : Option String
  compileProc : ProcBehavior
  runProc : ProcBehavior
  runExc : Option String
  elapsed : Nat
  deriving DecidableEq

/-- The compile step: gcc is invoked with no timeout argument
(code_executor.py lines 81-85). -/
def compileStep (env : ExecEnv) : ProcResult :=
  subprocessRun env.compileProc none

/-- The fixed diagnostic used when the startup probe found no gcc. -/
def gccMissingMsg : String := "GCC compiler is not available. Please install GCC."

/-- Everything one execute_c_code call produces: the returned pair, the
updated execution_results store, the events broadcast to the websocket
manager, and whether a temporary workspace was created. -/
structure ExecOutcome where
  execution_id : String
  result : ExecResult
  results : List (String × ExecResult)
  events : List Event
  workspaceCreated : Bool
  deriving DecidableEq

/-- CodeExecutor.execute_c_code.  gcc_available and execution_results are
the executor object's state; freshId models the str(uuid.uuid4()) drawn
when no execution_id is supplied; hasManager is whether a websocket
manager was passed (broadcasts happen only then). -/
def execute_c_code (gcc_available : Bool)
    (execution_results : List (String × ExecResult)) (env : ExecEnv)
    (code input_data : String) (execution_id : Option String)
    (freshId : String) (hasManager : Bool) : ExecOutcome :=
  let eid := match execution_id with
    | none => freshId
    | some e => e
  if gcc_available then
    -- tempfile.mkdtemp: the workspace exists from here on
    let evStart := if hasManager then [Event.starting] else []
    -- the body of the try block, producing the result fields assigned
    -- before the finally block and the mid-flight events
    let step : ExecResult × List Event :=
      match env.writeExc with
      | some m =>
          -- the outer except branch: unexpected error while writing
          (⟨"", "Unexpected error: " ++ m, 1, 0⟩,
           evStart ++ (if hasManager then [Event.error m] else []))
      | none =>
        let evCompiling := evStart ++ (if hasManager then [Event.compiling] else [])
        match compileStep env with
        | ProcResult.timeout =>
            -- unreachable: the compile invocation passes no timeout, so
            -- TimeoutExpired (an Exception) would hit the outer except
            (⟨"", "Unexpected error: TimeoutExpired", 1, 0⟩,
             evCompiling ++ (if hasManager then [Event.error "TimeoutExpired"] else []))
        | ProcResult.finished _ cerr crc =>
          if crc != 0 then
            -- compilation error: stderr and exit code are recorded
            (⟨"", cerr, crc, 0⟩,
             evCompiling ++ (if hasManager then [Event.compile_error cerr] else []))
          else
            let evRunning := evCompiling ++ (if hasManager then [Event.running] else [])
            match env.runExc with
            | some m =>
                (⟨"", "Execution error: " ++ m, 1, 0⟩, evRunning)
            | none =>
              -- the program runs under the 10 second cap, with or without
              -- the input file; both subprocess.run calls are identical
              -- apart from stdin redirection
              match subprocessRun env.runProc (some 10) with
              | ProcResult.timeout =>
                  (⟨"", "Execution timed out after 10 seconds", 1, 0⟩, evRunning)
              | ProcResult.finished out err rc =>
                  (⟨out, if err == "" then "" else err, rc, 0⟩, evRunning)
    -- the finally block: record the elapsed time, store the result, and
    -- broadcast the final completed event
    let result : ExecResult := ⟨step.1.output, step.1.error, step.1.status_code, env.elapsed⟩
    ⟨eid, result, setMap execution_results eid result,
     step.2 ++ (if hasManager then [Event.completed result] else []), true⟩
  else
    -- gcc unavailable: report and return before any workspace is created;
    -- note the early return skips the finally block entirely
    let result : ExecResult := ⟨"", gccMissingMsg, 1, 0⟩
    ⟨eid, result, setMap execution_results eid result,
     (if hasManager then [Event.error gccMissingMsg] else []), false⟩

/-- Modelled from the spec: the per-branch sequence of event statuses the
engine publishes for one execution when a broadcaster is attached
(section 4.1, every state transition emits an event). -/
def specEventStatuses (gcc_available : Bool) (env : ExecEnv) : List String :=
  if gcc_available then
    match env.writeExc with
    | some _ => ["starting", "error", "completed"]
    | none =>
      match compileStep env with
      | ProcResult.timeout => ["starting", "compiling", "error", "completed"]
      | ProcResult.finished _ _ crc =>
          if crc != 0 then ["starting", "compiling", "compile_error", "completed"]
          else ["starting", "compiling", "running", "completed"]
  else ["error"]

/-! ## ChatHandler.process_message (chat_handler.py lines 11-121)

The generation service (OpenAI-backed classify/generate/chat calls) is an
oracle per message: each call either returns a value or raises, which the
source catches.  Sessions are mutated in place in Python, so the model
writes the session back into the store at the same points the source's
mutations become visible: immediately after the user turn is appended, and
again in any branch that mutates further. -/

/-- One conversation turn, a {role, content} dictionary. -/
structure Turn where
  role : String
  content : String
  deriving DecidableEq

/-- Per-session state: last generated code, language, history. -/
structure Session where
  last_generated_code : Option String
  language : String
  history : List Turn
  deriving DecidableEq

/-- The session a missing id is initialised with (lines 15-20). -/
def freshSession : Session := ⟨none, "c", []⟩

/-- Outcomes of the three generation-service calls one message may make;
an error value models the call raising. -/
structure GenOracle where
  classify : Except String Bool
  generate : Except String String
  chatResp : Except String String

/-- The three response dictionary shapes process_message returns. -/
inductive Response where
  | codeExecution : String → String → String → Nat → String → Response
  | codeGeneration : String → String → Response
  | textResp : String → Response
  deriving DecidableEq

/-- The chat handler's reachable state: the shared executor's gcc flag and
result store, plus the session store. -/
structure ChatState where
  gcc_available : Bool
  sessions : List (String × Session)
  execution_results : List (String × ExecResult)
  deriving DecidableEq

/-- What one process_message call produces: the new state, the returned
response, and the events broadcast during it. -/
structure ChatOutcome where
  state : ChatState
  response : Response
  events : List Event
  deriving DecidableEq

/-- The code_execution response dictionary (lines 41-48 and 72-79):
content and status are chosen by the record's status_code. -/
def executionResponse (o : ExecOutcome) (code : String) : Response :=
  if o.result.status_code == 0 then
    Response.codeExecution o.result.output code "success" o.result.execution_time o.execution_id
  else
    Response.codeExecution o.result.error code "error" o.result.execution_time o.execution_id

/-- The execute-and-respond block duplicated verbatim in branches 1 and 2
(lines 35-48 and 66-79): draw a fresh execution id, call the executor with
no websocket manager, and build the code_execution response. -/
def runCodeExecution (st : ChatState) (code input_data : String)
    (env : ExecEnv) (freshId : String) : ChatOutcome :=
  let o := execute_c_code st.gcc_available st.execution_results env code
      input_data (some freshId) freshId false
  ⟨⟨st.gcc_available, st.sessions, o.results⟩, executionResponse o code, o.events⟩

/-- ChatHandler.process_message.  envOf gives the executor oracle for the
program text actually executed; freshId models the uuid drawn by the firing
branch. -/
def process_message (st : ChatState) (message input_data session_id : String)
    (gen : GenOracle) (envOf : String → ExecEnv) (freshId : String) : ChatOutcome :=
  let session0 := (lookupMap st.sessions session_id).getD freshSession
  -- append the user's message to the conversation history (line 24)
  let session1 : Session :=
    ⟨session0.last_generated_code, session0.language, session0.history ++ [⟨"user", message⟩]⟩
  let st1 : ChatState := ⟨st.gcc_available, setMap st.sessions session_id session1, st.execution_results⟩
  if is_run_previous_code_request message && optTruthy session1.last_generated_code then
    -- branch 1: run previously generated code
    let code := session1.last_generated_code.getD ""
    let language := session1.language
    let session2 : Session :=
      ⟨session1.last_generated_code, session1.language,
       session1.history ++ [⟨"assistant", "Executing previously generated code."⟩]⟩
    let st2 : ChatState := ⟨st1.gcc_available, setMap st1.sessions session_id session2, st1.execution_results⟩
    if lowerStr language == "c" || lowerStr language == "" then
      runCodeExecution st2 code input_data (envOf code) freshId
    else
      ⟨st2, Response.textResp
        ("Sorry, I can only execute C code right now. The generated code is in " ++ language ++ "."), []⟩
  else
    match extract_code message with
    | some (language, code) =>
      -- branch 2: the message embeds a code block; store it, then run it
      let session2 : Session :=
        ⟨some code, language,
         session1.history ++ [⟨"assistant", "Received code to execute."⟩]⟩
      let st2 : ChatState := ⟨st1.gcc_available, setMap st1.sessions session_id session2, st1.execution_results⟩
      if lowerStr language == "c" || lowerStr language == "" then
        runCodeExecution st2 code input_data (envOf code) freshId
      else
        ⟨st2, Response.textResp
          ("Sorry, I can only execute C code right now. You provided " ++ language ++ " code."), []⟩
    | none =>
      -- branch 3/4 dispatch: classification failure falls through to chat
      let is_code_request := match gen.classify with
        | Except.ok b => b
        | Except.error _ => false
      if is_code_request then
        match gen.generate with
        | Except.ok code =>
          let session2 : Session :=
            ⟨some code, "c", session1.history ++ [⟨"assistant", code⟩]⟩
          ⟨⟨st1.gcc_available, setMap st1.sessions session_id session2, st1.execution_results⟩,
           Response.codeGeneration code "Here\x27s the generated C code based on your request:", []⟩
        | Except.error e =>
          ⟨st1, Response.textResp ("Failed to generate code: " ++ e), []⟩
      else
        match gen.chatResp with
        | Except.ok r =>
          let session2 : Session :=
            ⟨session1.last_generated_code, session1.language,
             session1.history ++ [⟨"assistant", r⟩]⟩
          ⟨⟨st1.gcc_available, setMap st1.sessions session_id session2, st1.execution_results⟩,
           Response.textResp r, []⟩
        | Except.error e =>
          ⟨st1, Response.textResp ("Chat error: " ++ e), []⟩

/-- The inputs and oracles of one chat message. -/
structure ChatMsgInput where
  message : String
  input_data : String
  gen : GenOracle
  envOf : String → ExecEnv
  freshId : String

/-- Process a list of messages sequentially for one session id. -/
def runMessages (st : ChatState) (session_id : String) : List ChatMsgInput → ChatState
  | [] => st
  | m :: rest =>
      runMessages (process_message st m.message m.input_data session_id m.gen m.envOf m.freshId).state
        session_id rest

/-- Length of a session's conversation history (0 when the session does not
exist yet). -/
def sessionHistLen (st : ChatState) (session_id : String) : Nat :=
  ((lookupMap st.sessions session_id).getD freshSession).history.length

/-- Whether an Except value carries a success. -/
def isOkE {ε α : Type} : Except ε α → Bool
  | Except.ok _ => true
  | Except.error _ => false

/-! ## ConnectionManager and the websocket endpoint (main.py)

A channel is one connected websocket; sendOk says whether send_text on it
succeeds (a failed send raises and the manager drops the channel). -/

/-- One websocket channel. -/
structure Channel where
  id : Nat
  sendOk : Bool
  deriving DecidableEq

/-- The manager's active_connections dictionary. -/
def ConnMap : Type := List (String × List Channel)

/-- ConnectionManager.connect (lines 639-644): accept and register. -/
def connect (m : ConnMap) (ws : Channel) (execution_id : String) : ConnMap :=
  match lookupMap m execution_id with
  | none => setMap m execution_id [ws]
  | some l => setMap m execution_id (l ++ [ws])

/-- ConnectionManager.disconnect (lines 646-653): remove the channel if
registered, and drop the key when its list is empty. -/
def disconnect (m : ConnMap) (ws : Channel) (execution_id : String) : ConnMap :=
  match lookupMap m execution_id with
  | none => m
  | some l =>
    let l2 := if ws ∈ l then removeFirst l ws else l
    if l2.isEmpty then removeKey m execution_id else setMap m execution_id l2

/-- ConnectionManager.broadcast (lines 655-668): send to every registered
channel in registration order, collect the channels whose send raised, then
disconnect those.  Returns the new map and the channels that received the
message. -/
def broadcast (m : ConnMap) (message : Event) (execution_id : String) :
    ConnMap × List Channel :=
  match lookupMap m execution_id with
  | none => (m, [])
  | some conns =>
    let delivered := conns.filter (fun c => c.sendOk)
    let disconnected := conns.filter (fun c => !c.sendOk)
    (disconnected.foldl (fun acc ws => disconnect acc ws execution_id) m, delivered)

/-- The connection prefix of websocket_endpoint (main.py lines 775-791):
register the channel, and if the execution already has a stored result,
send one completed event with it immediately; a failing send raises into
the handler, which disconnects.  Returns the new map and the events
delivered to the joining channel. -/
def websocket_endpoint_join (m : ConnMap) (results : List (String × ExecResult))
    (ws : Channel) (execution_id : String) : ConnMap × List Event :=
  let m1 := connect m ws execution_id
  match lookupMap results execution_id with
  | some r =>
      if ws.sendOk then (m1, [Event.completed r])
      else (disconnect m1 ws execution_id, [])
  | none => (m1, [])

/-! ## Concrete fixtures used by witnesses and counterexamples -/

/-- A gcc invocation that succeeds. -/
def pbCompileOk : ProcBehavior := ⟨"", "", 0, 1⟩

/-- A program that prints hi, writes no stderr, and exits 0 in 1 unit. -/
def pbRunHi : ProcBehavior := ⟨"hi", "", 0, 1⟩

/-- A program that would run for 99 units (beyond the 10 unit cap). -/
def pbRunLong : ProcBehavior := ⟨"", "", 0, 99⟩

/-- A normal successful execution environment. -/
def envNormal : ExecEnv := ⟨none, pbCompileOk, pbRunHi, none, 3⟩

/-- An environment whose run step exceeds the cap. -/
def envTimeout : ExecEnv := ⟨none, pbCompileOk, pbRunLong, none, 12⟩

/-- An environment observed with 5 units of wall-clock elapsed. -/
def envFive : ExecEnv := ⟨none, pbCompileOk, pbRunHi, none, 5⟩

/-- Executor oracle for chat fixtures: every program behaves like envNormal. -/
def envAny : String → ExecEnv := fun _ => envNormal

/-- A generation oracle whose calls all succeed. -/
def genOk : GenOracle := ⟨Except.ok false, Except.ok "gen", Except.ok "reply"⟩

/-- A generation oracle that classifies the message as a code request and
then raises inside generate_code. -/
def genGenerateRaises : GenOracle :=
  ⟨Except.ok true, Except.error "boom", Except.ok "reply"⟩

/-- A chat state holding a session whose stored code is OLD. -/
def stWithStored : ChatState :=
  ⟨true, [("default", ⟨some "OLD", "c", []⟩)], []⟩

/-- A message that both embeds a C code block and contains a run trigger. -/
def msgBlockAndTrigger : String := "run it\n```c\nint x;\n```"

/-- A message that only embeds a C code block. -/
def msgBlockOnly : String := "```c\nint x;\n```"

/-! ## Helper lemmas -/

lemma lookupMap_setMap_self {α : Type} (m : List (String × α)) (k : String) (v : α) :
    lookupMap (setMap m k v) k = some v := by
  induction m with
  | nil => simp [setMap, lookupMap]
  | cons p rest ih =>
    by_cases h : p.1 = k <;> simp [setMap, lookupMap, h, ih]

lemma setMap_setMap_self {α : Type} (m : List (String × α)) (k : String) (v w : α) :
    setMap (setMap m k v) k w = setMap m k w := by
  induction m with
  | nil => simp [setMap]
  | cons p rest ih =>
    by_cases h : p.1 = k <;> simp [setMap, h, ih]

lemma lookupMap_removeKey_self {α : Type} (m : List (String × α)) (k : String) :
    lookupMap (removeKey m k) k = none := by
  induction m with
  | nil => simp [removeKey, lookupMap]
  | cons p rest ih =>
    by_cases h : p.1 = k <;> simp [removeKey, lookupMap, h, ih]

lemma removeFirst_of_not_mem {α : Type} [DecidableEq α] {l : List α} {a : α}
    (h : a ∉ l) : removeFirst l a = l := by
  induction l with
  | nil => rfl
  | cons c rest ih =>
    simp only [List.mem_cons, not_or] at h
    simp [removeFirst, Ne.symm h.1, ih h.2]

lemma mem_of_mem_removeFirst {α : Type} [DecidableEq α] {l : List α} {a x : α}
    (h : x ∈ removeFirst l a) : x ∈ l := by
  induction l with
  | nil => simp [removeFirst] at h
  | cons c rest ih =>
    by_cases hc : c = a
    · simp [removeFirst, hc] at h
      simp [h]
    · simp [removeFirst, hc] at h
      rcases h with h | h
      · simp [h]
      · simp [ih h]

lemma not_mem_removeFirst_self {α : Type} [DecidableEq α] {l : List α} {a : α}
    (h : l.Nodup) : a ∉ removeFirst l a := by
  induction l with
  | nil => simp [removeFirst]
  | cons c rest ih =>
    rw [List.nodup_cons] at h
    by_cases hc : c = a
    · simp [removeFirst, hc]
      subst hc
      exact h.1
    · simp [removeFirst, hc]
      exact ⟨fun he => hc he.symm, ih h.2⟩

lemma nodup_removeFirst {α : Type} [DecidableEq α] {l : List α} (a : α)
    (h : l.Nodup) : (removeFirst l a).Nodup := by
  induction l with
  | nil => simp [removeFirst]
  | cons c rest ih =>
    rw [List.nodup_cons] at h
    by_cases hc : c = a
    · simpa [removeFirst, hc] using h.2
    · simp [removeFirst, hc, List.nodup_cons]
      exact ⟨fun hm => h.1 (mem_of_mem_removeFirst hm), ih h.2⟩

lemma mem_of_mem_foldl_removeFirst {α : Type} [DecidableEq α]
    {F l : List α} {x : α} (h : x ∈ F.foldl removeFirst l) : x ∈ l := by
  induction F generalizing l with
  | nil => simpa using h
  | cons f F ih =>
    simp only [List.foldl_cons] at h
    exact mem_of_mem_removeFirst (ih h)

lemma not_mem_foldl_removeFirst {α : Type} [DecidableEq α]
    {F l : List α} {a : α} (hnd : l.Nodup) (ha : a ∈ F) :
    a ∉ F.foldl removeFirst l := by
  induction F generalizing l with
  | nil => simp at ha
  | cons f F ih =>
    simp only [List.foldl_cons]
    rcases List.mem_cons.mp ha with h | h
    · subst h
      intro hmem
      exact not_mem_removeFirst_self hnd (mem_of_mem_foldl_removeFirst hmem)
    · exact ih (nodup_removeFirst f hnd) h

/-- Disconnecting a batch of channels can only shrink the channel list of a
key: whatever list the key holds afterwards arose from the original list by
removing the batch members one at a time. -/
lemma foldl_disconnect_lookup (F : List Channel) (m : ConnMap) (execution_id : String)
    (l : List Channel)
    (h : lookupMap (F.foldl (fun acc ws => disconnect acc ws execution_id) m) execution_id = some l) :
    ∃ conns, lookupMap m execution_id = some conns ∧ l = F.foldl removeFirst conns := by
  induction F generalizing m with
  | nil => exact ⟨l, by simpa using h, by simp⟩
  | cons w F ih =>
    simp only [List.foldl_cons] at h
    obtain ⟨c1, h1, hl⟩ := ih (disconnect m w execution_id) h
    unfold disconnect at h1
    cases hm : lookupMap m execution_id with
    | none =>
      rw [hm] at h1
      simp [hm] at h1
    | some l0 =>
      rw [hm] at h1
      dsimp only at h1
      have hrem : (if w ∈ l0 then removeFirst l0 w else l0) = removeFirst l0 w := by
        by_cases hw : w ∈ l0
        · simp [hw]
        · simp [hw, removeFirst_of_not_mem hw]
      rw [hrem] at h1
      by_cases he : (removeFirst l0 w).isEmpty
      · rw [if_pos he, lookupMap_removeKey_self] at h1
        cases h1
      · rw [if_neg he, lookupMap_setMap_self] at h1
        obtain rfl : removeFirst l0 w = c1 := by injection h1
        exact ⟨l0, rfl, by simpa using hl⟩

/-- Without a websocket manager, execute_c_code broadcasts nothing. -/
lemma events_no_manager (g : Bool) (store : List (String × ExecResult)) (env : ExecEnv)
    (code inp : String) (eid : Option String) (fid : String) :
    (execute_c_code g store env code inp eid fid false).events = [] := by
  unfold execute_c_code
  cases g
  · simp
  · repeat' (first | simp | split)

lemma specEventStatuses_pos (g : Bool) (env : ExecEnv) :
    1 ≤ (specEventStatuses g env).length := by
  unfold specEventStatuses
  repeat' (first | simp | split)

/-- With a websocket manager, the statuses broadcast by execute_c_code are
exactly the per-branch sequence of the spec's state machine. -/
lemma events_with_manager (g : Bool) (store : List (String × ExecResult)) (env : ExecEnv)
    (code inp : String) (eid : Option String) (fid : String) :
    ((execute_c_code g store env code inp eid fid true).events).map eventStatus =
      specEventStatuses g env := by
  unfold execute_c_code specEventStatuses
  cases g
  · simp [eventStatus]
  · repeat' (first | simp [eventStatus] | split)

/-- process_message never broadcasts: its executor calls pass no manager. -/
lemma chat_events_nil (st : ChatState) (msg inp sid : String) (gen : GenOracle)
    (envOf : String → ExecEnv) (fid : String) :
    (process_message st msg inp sid gen envOf fid).events = [] := by
  unfold process_message runCodeExecution
  repeat' (first | simp [events_no_manager] | split)

/-- One processed message grows the session history by exactly two turns,
provided the generation calls that yield the assistant reply do not raise. -/
lemma history_step (st : ChatState) (msg inp sid : String) (gen : GenOracle)
    (envOf : String → ExecEnv) (fid : String)
    (hg : isOkE gen.generate = true) (hc : isOkE gen.chatResp = true) :
    sessionHistLen (process_message st msg inp sid gen envOf fid).state sid =
      sessionHistLen st sid + 2 := by
  unfold process_message runCodeExecution sessionHistLen
  repeat' (first | simp_all [isOkE, lookupMap_setMap_self, setMap_setMap_self] | split)

lemma runMessages_len (msgs : List ChatMsgInput) (st : ChatState) (sid : String)
    (h : ∀ m ∈ msgs, isOkE m.gen.generate = true ∧ isOkE m.gen.chatResp = true) :
    sessionHistLen (runMessages st sid msgs) sid = sessionHistLen st sid + 2 * msgs.length := by
  induction msgs generalizing st with
  | nil => simp [runMessages]
  | cons m rest ih =>
    have hm := h m (List.mem_cons_self m rest)
    rw [runMessages, ih _ (fun x hx => h x (List.mem_cons_of_mem m hx)),
      history_step st m.message m.input_data sid m.gen m.envOf m.freshId hm.1 hm.2]
    simp only [List.length_cons]
    ring

/-! ## Claim theorems -/

/-- Claim C1, counterexample. When the message both embeds a C code block
and contains a run-trigger phrase, and the session already holds stored
code, process_message takes the run-previous branch, not the
provide-and-run branch: the stored code stays OLD instead of being
overwritten with the extracted block, and the history marker is the
run-previous acknowledgment. -/
theorem c1_counterexample :
    extract_code msgBlockAndTrigger = some ("c", "int x;") ∧
    is_run_previous_code_request msgBlockAndTrigger = true ∧
    ((lookupMap (process_message stWithStored msgBlockAndTrigger "" "default" genOk envAny
        "f0").state.sessions "default").getD freshSession).last_generated_code = some "OLD" ∧
    some "OLD" ≠ some "int x;" ∧
    ((lookupMap (process_message stWithStored msgBlockAndTrigger "" "default" genOk envAny
        "f0").state.sessions "default").getD freshSession).history =
      [⟨"user", msgBlockAndTrigger⟩,
       ⟨"assistant", "Executing previously generated code."⟩] :=
  ⟨by decide, by decide, by decide, by decide, by decide⟩

/-- Claim C1, amended. Whenever the message embeds a fenced C code block
and the run-previous branch does not fire (the message has no run-trigger
phrase, or the session holds no nonempty stored code), process_message
takes the provide-and-run branch: it overwrites the session's last code
and language with the first extracted block, appends the received-code
marker, and executes the extracted code. -/
theorem c1_amended (st : ChatState) (msg inp sid : String) (gen : GenOracle)
    (envOf : String → ExecEnv) (fid : String) (code : String)
    (hx : extract_code msg = some ("c", code))
    (h1 : (is_run_previous_code_request msg &&
        optTruthy ((lookupMap st.sessions sid).getD freshSession).last_generated_code) = false) :
    (process_message st msg inp sid gen envOf fid).state.sessions =
      setMap st.sessions sid
        ⟨some code, "c",
         ((lookupMap st.sessions sid).getD freshSession).history ++
           [⟨"user", msg⟩, ⟨"assistant", "Received code to execute."⟩]⟩ ∧
    (process_message st msg inp sid gen envOf fid).state.execution_results =
      (execute_c_code st.gcc_available st.execution_results (envOf code) code inp
        (some fid) fid false).results ∧
    (process_message st msg inp sid gen envOf fid).response =
      executionResponse
        (execute_c_code st.gcc_available st.execution_results (envOf code) code inp
          (some fid) fid false) code := by
  unfold process_message runCodeExecution
  rw [hx]
  simp [h1, setMap_setMap_self, show lowerStr "c" = "c" from rfl]

/-- Claim C1, witness for the amended theorem at a concrete message that
embeds a block and triggers nothing else. -/
theorem c1_amended_witness :
    (process_message ⟨true, [], []⟩ msgBlockOnly "" "default" genOk envAny "w1").state.sessions =
      setMap ([] : List (String × Session)) "default"
        ⟨some "int x;", "c",
         ((lookupMap ([] : List (String × Session)) "default").getD freshSession).history ++
           [⟨"user", msgBlockOnly⟩, ⟨"assistant", "Received code to execute."⟩]⟩ ∧
    (process_message ⟨true, [], []⟩ msgBlockOnly "" "default" genOk envAny "w1").state.execution_results =
      (execute_c_code true [] (envAny "int x;") "int x;" "" (some "w1") "w1" false).results ∧
    (process_message ⟨true, [], []⟩ msgBlockOnly "" "default" genOk envAny "w1").response =
      executionResponse
        (execute_c_code true [] (envAny "int x;") "int x;" "" (some "w1") "w1" false) "int x;" :=
  c1_amended ⟨true, [], []⟩ msgBlockOnly "" "default" genOk envAny "w1" "int x;"
    (by decide) (by decide)

/-- Claim C2, counterexample. A chat message embedding a code block runs
the executor to completion (the response is a code_execution built from
the execution), yet zero events are broadcast, because process_message
passes no websocket manager; the same execution with a manager attached
would broadcast four events. -/
theorem c2_counterexample :
    (process_message ⟨true, [], []⟩ msgBlockOnly "" "default" genOk envAny "f2").events = [] ∧
    (process_message ⟨true, [], []⟩ msgBlockOnly "" "default" genOk envAny "f2").response =
      executionResponse (execute_c_code true [] envNormal "int x;" "" (some "f2") "f2" false)
        "int x;" ∧
    ((execute_c_code true [] envNormal "int x;" "" (some "f2") "f2" true).events).length = 4 :=
  ⟨rfl, rfl, rfl⟩

/-- Claim C2, amended. When a websocket manager is supplied, execute_c_code
broadcasts the full per-branch status sequence of the state machine
(at least one event, independent of any subscriber set); without a manager
it broadcasts nothing, and every chat-orchestrated call passes no manager,
so executions started from process_message emit no events at all. -/
theorem c2_amended :
    (∀ (g : Bool) (store : List (String × ExecResult)) (env : ExecEnv)
       (code inp : String) (eid : Option String) (fid : String),
       ((execute_c_code g store env code inp eid fid true).events).map eventStatus =
         specEventStatuses g env ∧
       1 ≤ (specEventStatuses g env).length ∧
       (execute_c_code g store env code inp eid fid false).events = []) ∧
    (∀ (st : ChatState) (msg inp sid : String) (gen : GenOracle)
       (envOf : String → ExecEnv) (fid : String),
       (process_message st msg inp sid gen envOf fid).events = []) :=
  ⟨fun g store env code inp eid fid =>
    ⟨events_with_manager g store env code inp eid fid,
     specEventStatuses_pos g env,
     events_no_manager g store env code inp eid fid⟩,
   fun st msg inp sid gen envOf fid => chat_events_nil st msg inp sid gen envOf fid⟩

/-- Claim C3. When the toolchain is available, nothing raises, the compiler
exits 0 and the program finishes within the cap, the record carries the
program's stdout as output, its exit code as status_code, and its stderr as
error (hence empty error unless the program wrote to stderr). -/
theorem c3_normal_completion (store : List (String × ExecResult)) (env : ExecEnv)
    (code inp : String) (eid : Option String) (fid : String) (mgr : Bool)
    (hw : env.writeExc = none) (hr : env.runExc = none)
    (hc : env.compileProc.returncode = 0) (hd : env.runProc.duration ≤ 10) :
    (execute_c_code true store env code inp eid fid mgr).result.output = env.runProc.stdout ∧
    (execute_c_code true store env code inp eid fid mgr).result.status_code = env.runProc.returncode ∧
    (execute_c_code true store env code inp eid fid mgr).result.error = env.runProc.stderr := by
  unfold execute_c_code compileStep subprocessRun
  rw [hw, hr]
  simp [hc, Nat.not_lt.mpr hd]
  by_cases h : env.runProc.stderr = "" <;> simp [h]

/-- Claim C3, witness: a program that exits 0 printing hi yields
status_code 0, output hi and empty error. -/
theorem c3_witness :
    (execute_c_code true [] envNormal "prog" "" none "w3" false).result.output = "hi" ∧
    (execute_c_code true [] envNormal "prog" "" none "w3" false).result.status_code = 0 ∧
    (execute_c_code true [] envNormal "prog" "" none "w3" false).result.error = "" :=
  c3_normal_completion [] envNormal "prog" "" none "w3" false rfl rfl rfl (by decide)

/-- Claim C4. A run exceeding the 10 unit cap yields the fixed timeout
message and status_code 1; and the compile step is invoked with no time
limit, so it can never time out. -/
theorem c4_run_timeout :
    (∀ (store : List (String × ExecResult)) (env : ExecEnv) (code inp : String)
        (eid : Option String) (fid : String) (mgr : Bool),
      env.writeExc = none → env.runExc = none → env.compileProc.returncode = 0 →
      10 < env.runProc.duration →
      (execute_c_code true store env code inp eid fid mgr).result.error =
          "Execution timed out after 10 seconds" ∧
      (execute_c_code true store env code inp eid fid mgr).result.status_code = 1) ∧
    (∀ env : ExecEnv, compileStep env ≠ ProcResult.timeout) := by
  constructor
  · intro store env code inp eid fid mgr hw hr hc hd
    unfold execute_c_code compileStep subprocessRun
    rw [hw, hr]
    simp [hc, hd]
  · intro env h
    simp [compileStep, subprocessRun] at h

/-- Claim C4, witness: a 99 unit run times out with the fixed message. -/
theorem c4_witness :
    (execute_c_code true [] envTimeout "prog" "" none "w4" false).result.error =
      "Execution timed out after 10 seconds" ∧
    (execute_c_code true [] envTimeout "prog" "" none "w4" false).result.status_code = 1 :=
  c4_run_timeout.1 [] envTimeout "prog" "" none "w4" false rfl rfl rfl (by decide)

/-- Claim C5. Joining the websocket endpoint for an execution id that
already has a stored record delivers exactly one immediate completed event
carrying that record to the joining channel, whatever the prior subscriber
state was (including none). -/
theorem c5_replay_on_join (m : ConnMap) (results : List (String × ExecResult))
    (ws : Channel) (execution_id : String) (r : ExecResult)
    (hr : lookupMap results execution_id = some r) (hok : ws.sendOk = true) :
    (websocket_endpoint_join m results ws execution_id).2 = [Event.completed r] := by
  unfold websocket_endpoint_join
  rw [hr, hok]
  simp

/-- Claim C5, witness: joining with zero prior subscribers replays the
stored record once. -/
theorem c5_witness :
    (websocket_endpoint_join [] [("e", ⟨"hi", "", 0, 3⟩)] ⟨1, true⟩ "e").2 =
      [Event.completed ⟨"hi", "", 0, 3⟩] :=
  c5_replay_on_join [] [("e", ⟨"hi", "", 0, 3⟩)] ⟨1, true⟩ "e" ⟨"hi", "", 0, 3⟩ rfl rfl

/-- Claim C6. Broadcast delivers the event to every registered channel
whose send succeeds, in registration order, and every channel whose send
fails is absent from the id's channel set afterwards. -/
theorem c6_broadcast_delivery (m : ConnMap) (ev : Event) (execution_id : String)
    (conns : List Channel) (h : lookupMap m execution_id = some conns)
    (hnd : conns.Nodup) :
    (broadcast m ev execution_id).2 = conns.filter (fun c => c.sendOk) ∧
    (∀ c, c ∈ conns → c.sendOk = false →
      ∀ l, lookupMap (broadcast m ev execution_id).1 execution_id = some l → c ∉ l) := by
  unfold broadcast
  rw [h]
  refine ⟨rfl, ?_⟩
  intro c hc hf l hl
  obtain ⟨conns2, h2, hl2⟩ := foldl_disconnect_lookup _ _ _ _ hl
  rw [h] at h2
  obtain rfl : conns = conns2 := by injection h2
  subst hl2
  exact not_mem_foldl_removeFirst hnd (List.mem_filter.mpr ⟨hc, by simp [hf]⟩)

/-- Claim C6, witness: of three registered channels the failing middle one
is dropped and the other two receive the event in order. -/
theorem c6_witness :
    (broadcast [("e", [⟨1, true⟩, ⟨2, false⟩, ⟨3, true⟩])] Event.starting "e").2 =
      [⟨1, true⟩, ⟨3, true⟩] ∧
    ∀ l, lookupMap (broadcast [("e", [⟨1, true⟩, ⟨2, false⟩, ⟨3, true⟩])] Event.starting "e").1 "e" =
        some l → (⟨2, false⟩ : Channel) ∉ l := by
  have h := c6_broadcast_delivery [("e", [⟨1, true⟩, ⟨2, false⟩, ⟨3, true⟩])]
    Event.starting "e" [⟨1, true⟩, ⟨2, false⟩, ⟨3, true⟩] rfl (by decide)
  exact ⟨h.1, fun l hl => h.2 ⟨2, false⟩ (by decide) rfl l hl⟩

/-- Claim C7, counterexample. One message classified as a generation
request whose generate call raises appends only the user turn: the history
has length 1 after 1 message, not 2. -/
theorem c7_counterexample :
    sessionHistLen (runMessages ⟨true, [], []⟩ "default"
      [⟨"please write hello", "", genGenerateRaises, envAny, "f1"⟩]) "default" = 1 ∧
    sessionHistLen (runMessages ⟨true, [], []⟩ "default"
      [⟨"please write hello", "", genGenerateRaises, envAny, "f1"⟩]) "default" ≠ 2 * 1 :=
  ⟨by decide, by decide⟩

/-- Claim C7, amended. After N sequential messages to one session in which
no generate-code or chat-response call raised, the history length is
exactly 2N (each message contributes its user turn and one assistant
turn, in every branch). -/
theorem c7_amended (g : Bool) (sid : String) (msgs : List ChatMsgInput)
    (h : ∀ m ∈ msgs, isOkE m.gen.generate = true ∧ isOkE m.gen.chatResp = true) :
    sessionHistLen (runMessages ⟨g, [], []⟩ sid msgs) sid = 2 * msgs.length := by
  have hlen := runMessages_len msgs ⟨g, [], []⟩ sid h
  simpa [sessionHistLen, lookupMap, freshSession] using hlen

/-- Claim C7, witness: two conversational messages with succeeding
generation calls leave a history of length 4. -/
theorem c7_witness :
    sessionHistLen (runMessages ⟨true, [], []⟩ "default"
      [⟨"hello", "", genOk, envAny, "a"⟩, ⟨"hello again", "", genOk, envAny, "b"⟩]) "default" = 4 := by
  have h := c7_amended true "default"
    [⟨"hello", "", genOk, envAny, "a"⟩, ⟨"hello again", "", genOk, envAny, "b"⟩] ?hyp
  · simpa using h
  case hyp =>
    intro m hm
    rcases List.mem_cons.mp hm with rfl | hm2
    · exact ⟨rfl, rfl⟩
    · rcases List.mem_cons.mp hm2 with rfl | hm3
      · exact ⟨rfl, rfl⟩
      · simp at hm3

/-- Claim C8. With the toolchain probed unavailable, every call returns the
fixed diagnostic with status_code 1 immediately: no workspace is created
and no lifecycle events beyond the single error broadcast happen. -/
theorem c8_toolchain_unavailable (store : List (String × ExecResult)) (env : ExecEnv)
    (code inp : String) (eid : Option String) (fid : String) (mgr : Bool) :
    (execute_c_code false store env code inp eid fid mgr).result.error = gccMissingMsg ∧
    (execute_c_code false store env code inp eid fid mgr).result.status_code = 1 ∧
    (execute_c_code false store env code inp eid fid mgr).workspaceCreated = false ∧
    (execute_c_code false store env code inp eid fid mgr).events =
      (if mgr then [Event.error gccMissingMsg] else []) := by
  unfold execute_c_code
  simp

/-- Claim C9, counterexample. In the toolchain-unavailable branch the
record's execution_time stays at its initialised 0 even though 5 units of
wall-clock elapsed: the early return skips the time measurement. -/
theorem c9_counterexample :
    (execute_c_code false [] envFive "prog" "" none "w9" false).result.execution_time = 0 ∧
    envFive.elapsed = 5 ∧
    (execute_c_code false [] envFive "prog" "" none "w9" false).result.execution_time ≠
      envFive.elapsed := by
  refine ⟨rfl, rfl, ?_⟩
  decide

/-- Claim C9, amended. execution_time equals the wall-clock elapsed from
call entry to the final state in every branch that passes the toolchain
check; in the toolchain-unavailable branch it is the initialised 0. -/
theorem c9_amended (g : Bool) (store : List (String × ExecResult)) (env : ExecEnv)
    (code inp : String) (eid : Option String) (fid : String) (mgr : Bool) :
    (execute_c_code g store env code inp eid fid mgr).result.execution_time =
      if g then env.elapsed else 0 := by
  unfold execute_c_code
  cases g <;> simp

/-- Claim C10. Every call returns a pair whose id is bound to exactly the
returned record in the updated result store; a supplied execution id is
returned unchanged, and an absent one is replaced by the freshly drawn
uuid. -/
theorem c10_result_stored (g : Bool) (store : List (String × ExecResult)) (env : ExecEnv)
    (code inp : String) (eid : Option String) (fid : String) (mgr : Bool) :
    lookupMap (execute_c_code g store env code inp eid fid mgr).results
        (execute_c_code g store env code inp eid fid mgr).execution_id =
      some (execute_c_code g store env code inp eid fid mgr).result ∧
    (∀ e, eid = some e → (execute_c_code g store env code inp eid fid mgr).execution_id = e) ∧
    (eid = none → (execute_c_code g store env code inp eid fid mgr).execution_id = fid) := by
  unfold execute_c_code
  cases eid <;> cases g <;> simp [lookupMap_setMap_self]

/-- Claim C10, witness: a call with a supplied id abc returns abc and the
store then maps abc to the returned record. -/
theorem c10_witness :
    lookupMap (execute_c_code true [] envNormal "prog" "" (some "abc") "w10" false).results
        (execute_c_code true [] envNormal "prog" "" (some "abc") "w10" false).execution_id =
      some (execute_c_code true [] envNormal "prog" "" (some "abc") "w10" false).result ∧
    (execute_c_code true [] envNormal "prog" "" (some "abc") "w10" false).execution_id = "abc" :=
  ⟨(c10_result_stored true [] envNormal "prog" "" (some "abc") "w10" false).1,
   (c10_result_stored true [] envNormal "prog" "" (some "abc") "w10" false).2.1 "abc" rfl⟩
